import Mathlib

/-!
Verification development for the mission-control-api repository.

The definitions below are a shallow embedding of the TypeScript sources:
the ticket store (src/services/ticketService.ts and the ticket parser
utilities), and the grooming orchestrator (src/services/groomingService.ts).
Timestamps are modelled as natural numbers (milliseconds since the epoch;
the source stores ISO strings whose date order agrees with this order).
Filesystem state is modelled as an association list from file name to the
parse outcome of that file, with the record format collaborator abstracted
as in the specification: a file either parses to a stored ticket or fails
to parse. The external agent gateway is modelled as an oracle giving the
outcome of each successive HTTP invocation.
-/

set_option maxHeartbeats 1000000
set_option maxRecDepth 8192

namespace MissionControl

/-! ### String helpers (JavaScript string operations used by the source) -/

/-- Does the second character list start with the first one. -/
def charsStartWith : List Char → List Char → Bool
  | [], _ => true
  | _ :: _, [] => false
  | c :: cs, d :: ds => c == d && charsStartWith cs ds

/-- Does the second character list contain the first one as a contiguous block. -/
def charsContain (needle : List Char) : List Char → Bool
  | [] => needle.isEmpty
  | d :: ds => charsStartWith needle (d :: ds) || charsContain needle ds

/-- Model of the JavaScript method call hay.includes(needle). -/
def strIncludes (hay needle : String) : Bool :=
  charsContain needle.data hay.data

/-- Whitespace characters recognised by the JavaScript trim method. -/
def jsWhitespace (c : Char) : Bool :=
  c == ' ' || c == '\n' || c == '\t' || c == '\r'

/-- Model of the JavaScript method call s.trim(): drop whitespace from both ends. -/
def strTrim (s : String) : String :=
  String.mk (((s.data.dropWhile jsWhitespace).reverse.dropWhile jsWhitespace).reverse)

/-- JavaScript string disjunction: an empty string is falsy and falls back to
the default, mirroring the pattern (input.project || default). -/
def jsOrStr (o : Option String) (d : String) : String :=
  match o with
  | some s => if s = "" then d else s
  | none => d

/-- JavaScript numeric disjunction: zero is falsy and falls back to the
default, mirroring the pattern (ticket.grooming?.attempts || d). -/
def jsOrNat (o : Option Nat) (d : Nat) : Nat :=
  match o with
  | some n => if n = 0 then d else n
  | none => d

/-- First alternative if present, else the second; mirrors the effect of the
JavaScript object spread on one field of a partial update. -/
def oOr {α : Type} (a b : Option α) : Option α :=
  match a with
  | some v => some v
  | none => b

/-! ### Data model (src/types/ticket.ts) -/

/-- Grooming (enrichment) lifecycle status values. -/
inductive GStatus
  | pending
  | inProgress
  | complete
  | failed
  | manual
  deriving DecidableEq

/-- Ticket lifecycle status values. -/
inductive TStatus
  | backlog
  | todo
  | inProgress
  | done
  deriving DecidableEq

/-- Ticket priority values. -/
inductive TPriority
  | low
  | medium
  | high
  deriving DecidableEq

/-- Persisted EnrichmentStatus sub-record (grooming frontmatter block). -/
structure GroomingStatus where
  status : GStatus
  triggeredAt : Option Nat := none
  completedAt : Option Nat := none
  sessionKey : Option String := none
  attempts : Option Nat := none
  lastError : Option String := none
  deriving DecidableEq

/-- A ticket record. The filePath field of the source is omitted: file
identity is carried by the vault key under which the record is stored. -/
structure Ticket where
  id : String
  title : String
  status : TStatus
  priority : TPriority
  project : String
  assignee : Option String := none
  estimate : Option Int := none
  createdAt : Nat
  updatedAt : Nat
  body : String
  grooming : Option GroomingStatus := none
  deriving DecidableEq

/-! ### Ticket parser utilities (src/utils/ticketParser.ts) -/

/-- After the digits of a ticket file name: one or more digits followed by
the literal suffix for markdown files. -/
def tickNameTail : List Char → Bool
  | ['.', 'm', 'd'] => true
  | c :: rest => c.isDigit && tickNameTail rest
  | [] => false

/-- The file name pattern for ticket records, anchored at both ends. -/
def matchTickName (s : String) : Bool :=
  match s.data with
  | 'T' :: 'I' :: 'C' :: 'K' :: '-' :: c :: rest => c.isDigit && tickNameTail rest
  | _ => false

/-- Accumulate decimal digits into a number. -/
def digitsToNat : List Char → Nat → Nat
  | [], acc => acc
  | c :: cs, acc => digitsToNat cs (acc * 10 + (c.toNat - '0'.toNat))

/-- The numeric suffix of a ticket identifier; zero when the identifier does
not match the pattern, as in the source. -/
def tickNum (id : String) : Nat :=
  match id.data with
  | 'T' :: 'I' :: 'C' :: 'K' :: '-' :: ds => digitsToNat ds 0
  | _ => 0

/-- Remove the trailing three-character markdown suffix of a matching ticket
file name. On names matching the ticket pattern this is exactly what the
replace call of the source computes, because the suffix cannot occur
earlier in such a name. -/
def stripMd (s : String) : String :=
  String.mk (s.data.take (s.data.length - 3))

/-- Pad a decimal representation on the left with zeros to three characters. -/
def padLeft3 (s : String) : String :=
  String.mk (List.replicate (3 - s.data.length) '0' ++ s.data)

/-- generateNextTicketId from src/utils/ticketParser.ts: maximum existing
numeric suffix plus one, zero-padded. -/
def generateNextTicketId (ids : List String) : String :=
  let ns := ids.map tickNum
  let maxN := ns.foldl Nat.max 0
  "TICK-" ++ padLeft3 (Nat.repr (maxN + 1))

/-- priorityToNumber from src/utils/ticketParser.ts. -/
def priorityToNumber : TPriority → Nat
  | .high => 1
  | .medium => 2
  | .low => 3

/-! ### The vault: directory state for the ticket store -/

/-- A directory entry: file name paired with the parse outcome of the file.
A second component of none models a file whose contents fail to parse. -/
abbrev Vault := List (String × Option Ticket)

/-- Look up a file by name. -/
def vaultFind : Vault → String → Option (Option Ticket)
  | [], _ => none
  | (k, c) :: rest, name => if k = name then some c else vaultFind rest name

/-- Write a file, overwriting any existing file of the same name. -/
def vaultWrite (v : Vault) (name : String) (c : Option Ticket) : Vault :=
  match v with
  | [] => [(name, c)]
  | (k, c') :: rest => if k = name then (name, c) :: rest else (k, c') :: vaultWrite rest name c

/-! ### Ticket service (src/services/ticketService.ts) -/

/-- Errors surfaced by the ticket store. -/
inductive TErr
  | notFound
  | parseFail
  deriving DecidableEq

/-- The view of a stored ticket produced by parseTicket: the body is trimmed
when the markdown file is split from its frontmatter. -/
def parsedView (t : Ticket) : Ticket :=
  { t with body := strTrim t.body }

/-- getTicket: read the file for the identifier; a missing file is NotFound
and an unparseable file propagates the parse failure. -/
def getTicket (v : Vault) (id : String) : Except TErr Ticket :=
  match vaultFind v (id ++ ".md") with
  | none => .error .notFound
  | some none => .error .parseFail
  | some (some t) => .ok (parsedView t)

/-- Input for ticket creation. -/
structure CreateInput where
  title : String
  status : Option TStatus := none
  priority : Option TPriority := none
  project : Option String := none
  assignee : Option String := none
  estimate : Option Int := none
  body : Option String := none

/-- createTicket: generate the next identifier from the current directory
listing, stamp both timestamps with the current time, persist and return. -/
def createTicket (v : Vault) (input : CreateInput) (now : Nat) : Ticket × Vault :=
  let existingIds := ((v.map (fun f => f.1)).filter matchTickName).map stripMd
  let id := generateNextTicketId existingIds
  let t : Ticket :=
    { id := id
      title := input.title
      status := input.status.getD .backlog
      priority := input.priority.getD .medium
      project := jsOrStr input.project "Uncategorized"
      assignee := input.assignee
      estimate := input.estimate
      createdAt := now
      updatedAt := now
      body := jsOrStr input.body ""
      grooming := none }
  (t, vaultWrite v (id ++ ".md") (some t))

/-- Partial update for a ticket. -/
structure UpdatePatch where
  title? : Option String := none
  status? : Option TStatus := none
  priority? : Option TPriority := none
  project? : Option String := none
  assignee? : Option String := none
  estimate? : Option Int := none
  body? : Option String := none
  grooming? : Option GroomingStatus := none

/-- updateTicket: merge the provided fields over the existing record, force
the identifier unchanged, refresh the modification timestamp, persist. -/
def updateTicket (v : Vault) (id : String) (p : UpdatePatch) (now : Nat) :
    Except TErr (Ticket × Vault) :=
  match getTicket v id with
  | .error e => .error e
  | .ok existing =>
    let updated : Ticket :=
      { id := existing.id
        title := p.title?.getD existing.title
        status := p.status?.getD existing.status
        priority := p.priority?.getD existing.priority
        project := p.project?.getD existing.project
        assignee := oOr p.assignee? existing.assignee
        estimate := oOr p.estimate? existing.estimate
        createdAt := existing.createdAt
        updatedAt := now
        body := p.body?.getD existing.body
        grooming := oOr p.grooming? existing.grooming }
    .ok (updated, vaultWrite v (id ++ ".md") (some updated))

/-- Sort keys accepted by the listing endpoint. -/
inductive SortField
  | createdAt
  | updatedAt
  | priority
  | id
  deriving DecidableEq

/-- Sort directions accepted by the listing endpoint. -/
inductive SortOrder
  | asc
  | desc
  deriving DecidableEq

/-- Query parameters of listTickets. -/
structure ListQuery where
  status? : Option TStatus := none
  priority? : Option TPriority := none
  project? : Option String := none
  assignee? : Option String := none
  sort : SortField := .id
  order : SortOrder := .asc

/-- The comparator of listTickets for one sort key. -/
def cmpTickets (sf : SortField) (a b : Ticket) : Int :=
  match sf with
  | .priority => (priorityToNumber a.priority : Int) - (priorityToNumber b.priority : Int)
  | .createdAt => (a.createdAt : Int) - (b.createdAt : Int)
  | .updatedAt => (a.updatedAt : Int) - (b.updatedAt : Int)
  | .id => (tickNum a.id : Int) - (tickNum b.id : Int)

/-- The comparator with the descending flip applied. -/
def cmpWithOrder (sf : SortField) (ord : SortOrder) (a b : Ticket) : Int :=
  match ord with
  | .desc => -(cmpTickets sf a b)
  | .asc => cmpTickets sf a b

/-- Stable insertion into a sorted list. -/
def insertSorted (le : Ticket → Ticket → Bool) (x : Ticket) : List Ticket → List Ticket
  | [] => [x]
  | y :: ys => if le x y then x :: y :: ys else y :: insertSorted le x ys

/-- Stable sort of the listing by the requested comparator. -/
def sortTickets (sf : SortField) (ord : SortOrder) (ts : List Ticket) : List Ticket :=
  ts.foldr (fun x acc => insertSorted (fun a b => decide (cmpWithOrder sf ord a b ≤ 0)) x acc) []

/-- The per-file loop body of listTickets: parse each matching file, keep the
parsed tickets and skip any file whose parse fails, as the source catches
per-file errors and continues. -/
def collectTickets : List (String × Option Ticket) → List Ticket
  | [] => []
  | (_, c) :: rest =>
    match c with
    | some t => parsedView t :: collectTickets rest
    | none => collectTickets rest

/-- Conjunctive field-equality filters of the listing. -/
def applyFilters (q : ListQuery) (ts : List Ticket) : List Ticket :=
  let ts1 := match q.status? with
    | some s => ts.filter (fun t => decide (t.status = s))
    | none => ts
  let ts2 := match q.priority? with
    | some p => ts1.filter (fun t => decide (t.priority = p))
    | none => ts1
  let ts3 := match q.project? with
    | some s => ts2.filter (fun t => decide (t.project = s))
    | none => ts2
  match q.assignee? with
  | some a => ts3.filter (fun t => decide (t.assignee = some a))
  | none => ts3

/-- listTickets: read matching files, skip parse failures, filter, sort. -/
def listTickets (v : Vault) (q : ListQuery) : List Ticket :=
  let ticketFiles := v.filter (fun f => matchTickName f.1)
  let tickets := collectTickets ticketFiles
  sortTickets q.sort q.order (applyFilters q tickets)

/-- The persisted grooming sub-record of the stored ticket for an identifier. -/
def groomingOf (v : Vault) (tid : String) : Option GroomingStatus :=
  match vaultFind v (tid ++ ".md") with
  | some (some t) => t.grooming
  | _ => none

/-! ### In-memory grooming sessions (src/services/groomingService.ts) -/

/-- The value stored per identifier in the active session map. -/
structure SessionInfo where
  sessionKey : String
  startedAt : Nat
  deriving DecidableEq

/-- The active grooming session map, modelled as an association list with
JavaScript Map semantics. -/
abbrev Sessions := List (String × SessionInfo)

/-- Map lookup. -/
def sessionsFind : Sessions → String → Option SessionInfo
  | [], _ => none
  | (k, s) :: rest, tid => if k = tid then some s else sessionsFind rest tid

/-- Map set: replace the entry under an existing key, else append. -/
def sessionsSet : Sessions → String → SessionInfo → Sessions
  | [], k, s => [(k, s)]
  | (k', s') :: rest, k, s =>
    if k' = k then (k, s) :: rest else (k', s') :: sessionsSet rest k s

/-- Map delete. -/
def sessionsDelete (m : Sessions) (k : String) : Sessions :=
  m.filter (fun p => decide (p.1 ≠ k))

/-- The mutations the orchestrator performs on the session map. -/
inductive SessOp
  | set (id : String) (s : SessionInfo)
  | del (id : String)

/-- Apply one session map mutation. -/
def applySessOp (m : Sessions) : SessOp → Sessions
  | .set id s => sessionsSet m id s
  | .del id => sessionsDelete m id

/-- The session map reached from the initial empty map by a sequence of
orchestrator mutations. -/
def applySessOps (ops : List SessOp) : Sessions :=
  ops.foldl applySessOp []

/-! ### Grooming service: eligibility and scoring -/

/-- Retry ceiling of the grooming trigger. -/
def maxRetries : Nat := 3

/-- Inter-attempt delay of the grooming trigger, in milliseconds. -/
def retryDelayMs : Nat := 5000

/-- Check 1 of shouldAutoGroom: a grooming status of in-progress or pending
blocks re-triggering. -/
def groomingBlocked (t : Ticket) : Bool :=
  match t.grooming with
  | some g => decide (g.status = .inProgress) || decide (g.status = .pending)
  | none => false

/-- The implementation-details content markers recognised by check 3 of
shouldAutoGroom. -/
def hasImplMarker (body : String) : Bool :=
  strIncludes body "Implementation Details" || strIncludes body "**Implementation"

/-- shouldAutoGroom from src/services/groomingService.ts. The age checks of
the source compute fractional minutes and compare against 5 and 10; both
comparisons are expressed here in milliseconds, which is the same test. -/
def shouldAutoGroom (sessions : Sessions) (now : Nat) (t : Ticket) : Bool :=
  if groomingBlocked t then false
  else if (sessionsFind sessions t.id).isSome then false
  else
    let isBacklog := decide (t.status = .backlog)
    let missingEstimate := t.estimate.isNone
    if !isBacklog && !missingEstimate then false
    else
      let contentLength := t.body.length
      if decide (contentLength ≥ 500) && hasImplMarker t.body then false
      else
        let ageMs : Int := (now : Int) - (t.createdAt : Int)
        if decide (ageMs > 5 * 60 * 1000) then false
        else
          match t.grooming.bind (fun g => g.completedAt) with
          | some c =>
            let completedAgeMs : Int := (now : Int) - (c : Int)
            if decide (completedAgeMs < 10 * 60 * 1000) then false else true
          | none => true

/-- JavaScript truthiness of the numeric estimate field: present and nonzero. -/
def estimateTruthy : Option Int → Bool
  | some e => decide (e ≠ 0)
  | none => false

/-- calculateGroomingScore from src/services/groomingService.ts. -/
def calculateGroomingScore (t : Ticket) : Nat :=
  (if estimateTruthy t.estimate then 20 else 0)
  + (if strIncludes t.body "**Tasks:**" || strIncludes t.body "## Tasks" then 15 else 0)
  + (if strIncludes t.body "**Acceptance Criteria:**" || strIncludes t.body "## Acceptance" then 20 else 0)
  + (if strIncludes t.body "**Dependencies:**" || strIncludes t.body "## Dependencies" then 15 else 0)
  + (if strIncludes t.body "**Success Metrics:**" || strIncludes t.body "## Success" then 10 else 0)
  + (if strIncludes t.body "**Implementation" || strIncludes t.body "## Implementation" then 10 else 0)
  + (if decide (t.body.length > 2000) then 10 else 0)

/-! ### Grooming service: status writes -/

/-- A partial EnrichmentStatus, as passed to markGroomingStatus. -/
structure GroomingPatch where
  status? : Option GStatus := none
  triggeredAt? : Option Nat := none
  completedAt? : Option Nat := none
  sessionKey? : Option String := none
  attempts? : Option Nat := none
  lastError? : Option String := none

/-- The object-spread merge of a grooming patch over the existing grooming
sub-record. Every call site of the source provides the status field, so the
fallback for a missing status over a missing record is unreachable. -/
def mergeGrooming (old : Option GroomingStatus) (p : GroomingPatch) : GroomingStatus :=
  { status := p.status?.getD (match old with | some g => g.status | none => .pending)
    triggeredAt := oOr p.triggeredAt? (old.bind (fun g => g.triggeredAt))
    completedAt := oOr p.completedAt? (old.bind (fun g => g.completedAt))
    sessionKey := oOr p.sessionKey? (old.bind (fun g => g.sessionKey))
    attempts := oOr p.attempts? (old.bind (fun g => g.attempts))
    lastError := oOr p.lastError? (old.bind (fun g => g.lastError)) }

/-- markGroomingStatus: read the ticket, merge the patch over its grooming
sub-record and persist through updateTicket. Errors are caught and logged,
leaving the vault unchanged. -/
def markGroomingStatus (v : Vault) (tid : String) (p : GroomingPatch) (now : Nat) : Vault :=
  match getTicket v tid with
  | .error _ => v
  | .ok t =>
    match updateTicket v tid { grooming? := some (mergeGrooming t.grooming p) } now with
    | .error _ => v
    | .ok (_, v') => v'

/-- markGroomingComplete: drop the session and persist a complete status with
a completion timestamp. -/
def markGroomingComplete (v : Vault) (sessions : Sessions) (tid : String) (now : Nat) :
    Vault × Sessions :=
  let sessions' := sessionsDelete sessions tid
  (markGroomingStatus v tid { status? := some .complete, completedAt? := some now } now, sessions')

/-- markGroomingFailed: drop the session and persist a failed status with the
given error text. -/
def markGroomingFailed (v : Vault) (sessions : Sessions) (tid : String) (err : String) (now : Nat) :
    Vault × Sessions :=
  let sessions' := sessionsDelete sessions tid
  (markGroomingStatus v tid { status? := some .failed, lastError? := some err } now, sessions')

/-- The body of the reconciliation timer scheduled by scheduleSessionCleanup,
run when the timer fires: if the session for the identifier still carries
the captured session key, re-read the record, resolve a still in-progress
status through the quality score, and finally remove the session entry. A
failing read inside the timer is caught and only skips the status update. -/
def runSessionCleanup (v : Vault) (sessions : Sessions) (tid sKey : String) (now : Nat) :
    Vault × Sessions :=
  match sessionsFind sessions tid with
  | none => (v, sessions)
  | some s =>
    if s.sessionKey = sKey then
      let r : Vault × Sessions :=
        match getTicket v tid with
        | .error _ => (v, sessions)
        | .ok t =>
          if (t.grooming.map (fun g => g.status)) = some .inProgress then
            if calculateGroomingScore t ≥ 60 then
              markGroomingComplete v sessions tid now
            else
              markGroomingFailed v sessions tid "Session timeout" now
          else (v, sessions)
      (r.1, sessionsDelete r.2 tid)
    else (v, sessions)

/-! ### Grooming service: agent invocation and the retry loop -/

/-- The configuration consumed by the grooming service. -/
structure Config where
  openclawToken : Option String := none
  openclawGatewayUrl : String := ""

/-- The error text thrown when no agent token is configured. -/
def tokenMissingMsg : String :=
  "OpenClaw token not configured - cannot spawn grooming agent"

/-- Outcome of one HTTP invocation of the agent gateway. -/
inductive FetchOutcome
  | netErr (msg : String)
  | httpErr (code : Nat) (text : String)
  | gatewayErr (msg : String)
  | ok (childSessionKey : Option String)
  deriving DecidableEq

/-- The result shape returned by runOpenClawAgent. -/
structure AgentResult where
  success : Bool
  error : Option String := none
  deriving DecidableEq

/-- How runOpenClawAgent converts one HTTP outcome into its result: every
thrown error is caught and returned as a failure with its message. -/
def agentResultOf : FetchOutcome → AgentResult
  | .netErr m => { success := false, error := some m }
  | .httpErr code text =>
    { success := false, error := some ("Gateway returned " ++ Nat.repr code ++ ": " ++ text) }
  | .gatewayErr m => { success := false, error := some ("Gateway error: " ++ m) }
  | .ok _ => { success := true, error := none }

/-- Does an HTTP outcome make runOpenClawAgent report failure. -/
def outcomeFails : FetchOutcome → Bool
  | .ok _ => false
  | _ => true

/-- The error message runOpenClawAgent reports for a failing HTTP outcome. -/
def outcomeErrMsg : FetchOutcome → String
  | .netErr m => m
  | .httpErr code text => "Gateway returned " ++ Nat.repr code ++ ": " ++ text
  | .gatewayErr m => "Gateway error: " ++ m
  | .ok _ => ""

/-- The message the retry loop records for a failing outcome: the reported
error message, except that an empty message is falsy in the JavaScript
disjunction of the source and falls back to the generic text. -/
def attemptErrMsg (o : FetchOutcome) : String :=
  jsOrStr (some (outcomeErrMsg o)) "Agent execution failed"

/-- Mutable state threaded through one triggerGrooming run. The fetchCalls
counter indexes the HTTP oracle; attemptsMade counts loop iterations;
delaysMs records the inter-attempt sleeps; cleanups records the scheduled
reconciliation timers. -/
structure TrigState where
  vault : Vault
  sessions : Sessions
  fetchCalls : Nat := 0
  attemptsMade : Nat := 0
  delaysMs : List Nat := []
  cleanups : List (String × String) := []

/-- runOpenClawAgent: a missing token is thrown, caught locally and returned
as an immediate failure without touching the gateway; otherwise the next
HTTP outcome of the oracle is consumed and converted. -/
def runOpenClawAgent (cfg : Config) (oracle : Nat → FetchOutcome) (st : TrigState) :
    AgentResult × TrigState :=
  match cfg.openclawToken with
  | none => ({ success := false, error := some tokenMissingMsg }, st)
  | some _ =>
    (agentResultOf (oracle st.fetchCalls), { st with fetchCalls := st.fetchCalls + 1 })

/-- The prior attempt counter of the snapshot ticket passed to
triggerGrooming. -/
def groomAttempts (t : Ticket) : Option Nat :=
  t.grooming.bind (fun g => g.attempts)

/-- The patch persisted before the first attempt. -/
def pendingPatch (ticket : Ticket) (now : Nat) : GroomingPatch :=
  { status? := some .pending
    triggeredAt? := some now
    attempts? := some (jsOrNat (groomAttempts ticket) 0 + 1) }

/-- The patch persisted when an attempt succeeds. -/
def inProgressPatch (ticket : Ticket) (now : Nat) (sKey : String) : GroomingPatch :=
  { status? := some .inProgress
    triggeredAt? := some now
    sessionKey? := some sKey
    attempts? := some (jsOrNat (groomAttempts ticket) 1) }

/-- The patch persisted after all retries are exhausted. -/
def failedPatch (ticket : Ticket) (lastError : String) : GroomingPatch :=
  { status? := some .failed
    lastError? := some lastError
    attempts? := some (jsOrNat (groomAttempts ticket) 0 + 1) }

/-- Result of one triggerGrooming run. -/
structure TrigResult where
  vault : Vault
  sessions : Sessions
  ok : Bool
  err : Option String := none
  sessionKey : Option String := none
  fetchCalls : Nat
  attemptsMade : Nat
  delaysMs : List Nat
  cleanups : List (String × String)

/-- The retry loop of triggerGrooming, structurally recursive on the number
of attempts left. On failure of the last attempt the failed status is
persisted with the most recent error text; a sleep is recorded between
consecutive attempts only. The recorded text is the JavaScript falsy
disjunction of the reported error with the generic fallback, so an empty
error message is replaced by the fallback, as in the source. -/
def triggerAttempts (cfg : Config) (oracle : Nat → FetchOutcome) (tid : String) (ticket : Ticket)
    (sKey : String) (now : Nat) : Nat → String → TrigState → TrigResult
  | 0, lastError, st =>
    let v' := markGroomingStatus st.vault tid (failedPatch ticket lastError) now
    { vault := v', sessions := st.sessions, ok := false, err := some lastError
      fetchCalls := st.fetchCalls, attemptsMade := st.attemptsMade
      delaysMs := st.delaysMs, cleanups := st.cleanups }
  | fuel + 1, _, st =>
    let st1 := { st with attemptsMade := st.attemptsMade + 1 }
    let r := runOpenClawAgent cfg oracle st1
    if r.1.success then
      let sessions' := sessionsSet r.2.sessions tid { sessionKey := sKey, startedAt := now }
      let v' := markGroomingStatus r.2.vault tid (inProgressPatch ticket now sKey) now
      { vault := v', sessions := sessions', ok := true, err := none, sessionKey := some sKey
        fetchCalls := r.2.fetchCalls, attemptsMade := r.2.attemptsMade
        delaysMs := r.2.delaysMs, cleanups := r.2.cleanups ++ [(tid, sKey)] }
    else
      let lastError := jsOrStr r.1.error "Agent execution failed"
      let st3 := if fuel = 0 then r.2 else { r.2 with delaysMs := r.2.delaysMs ++ [retryDelayMs] }
      triggerAttempts cfg oracle tid ticket sKey now fuel lastError st3

/-- triggerGrooming from src/services/groomingService.ts: persist a pending
status with an incremented attempt counter, then run up to maxRetries
sequential invocation attempts. -/
def triggerGrooming (cfg : Config) (oracle : Nat → FetchOutcome) (v : Vault) (sessions : Sessions)
    (tid : String) (ticket : Ticket) (now : Nat) : TrigResult :=
  let v1 := markGroomingStatus v tid (pendingPatch ticket now) now
  let sKey := "groom-" ++ tid ++ "-" ++ Nat.repr now
  triggerAttempts cfg oracle tid ticket sKey now maxRetries ""
    { vault := v1, sessions := sessions }

/-! ### Concrete inputs used by witnesses and counterexamples -/

/-- A freshly created minimal backlog ticket. -/
def exTicketFresh : Ticket :=
  { id := "TICK-001"
    title := "Test Ticket"
    status := .backlog
    priority := .medium
    project := "Test Project"
    createdAt := 0
    updatedAt := 0
    body := "Brief description" }

/-- The fresh ticket with a pending grooming record. -/
def exTicketPendingGroom : Ticket :=
  { exTicketFresh with grooming := some { status := .pending } }

/-- A non-backlog ticket whose estimate is exactly zero. -/
def exTicketZeroEst : Ticket :=
  { exTicketFresh with status := .inProgress, estimate := some 0 }

/-- The five recognised section markers, as a character list. -/
def exFullMarks : List Char :=
  "**Tasks:** **Acceptance Criteria:** **Dependencies:** **Success Metrics:** **Implementation Details:**".data

/-- A body containing all five recognised sections followed by enough filler
to exceed the large-content threshold. -/
def exFullBody : String :=
  String.mk (exFullMarks ++ List.replicate 2000 'x')

/-- A fully groomed ticket: estimate plus all five sections plus long body. -/
def exTicketFull : Ticket :=
  { exTicketFresh with estimate := some 5, body := exFullBody }

/-- A ticket with an empty body and no estimate. -/
def exTicketEmptyBody : Ticket :=
  { exTicketFresh with body := "" }

/-- A vault holding only the fresh ticket. -/
def exVault : Vault := [("TICK-001.md", some exTicketFresh)]

/-- Creation input mirroring the fresh ticket. -/
def exCreateInput : CreateInput :=
  { title := "Test Ticket", body := some "Brief description" }

/-- Creation input whose body carries a trailing newline. -/
def exCreateInputNl : CreateInput := { title := "T", body := some "x\n" }

/-- An update patch renaming the ticket. -/
def exPatch : UpdatePatch := { title? := some "New title" }

/-- Configuration with an agent token present. -/
def exCfg : Config := { openclawToken := some "tok" }

/-- Configuration with no agent token. -/
def exCfgNoToken : Config := { openclawToken := none }

/-- An oracle under which every gateway invocation fails at transport level. -/
def exOracleFail : Nat → FetchOutcome := fun _ => .netErr "boom"

/-- An in-progress grooming sub-record. -/
def exGroomInProgress : GroomingStatus := { status := .inProgress }

/-- The fresh ticket while its grooming is in progress. -/
def exTicketInProg : Ticket := { exTicketFresh with grooming := some exGroomInProgress }

/-- A vault holding the in-progress ticket. -/
def exVaultInProg : Vault := [("TICK-001.md", some exTicketInProg)]

/-- The session tracked for the in-progress ticket. -/
def exSession : SessionInfo := { sessionKey := "sk", startedAt := 0 }

/-- A session map holding only that session. -/
def exSessions : Sessions := [("TICK-001", exSession)]

/-! ### Helper lemmas -/

theorem vaultFind_write_self (v : Vault) (k : String) (c : Option Ticket) :
    vaultFind (vaultWrite v k c) k = some c := by
  induction v with
  | nil => simp [vaultWrite, vaultFind]
  | cons hd tl ih =>
    obtain ⟨k', c'⟩ := hd
    by_cases h : k' = k
    · simp [vaultWrite, h, vaultFind]
    · simp [vaultWrite, h, vaultFind, ih]

theorem sessionsFind_delete_self (m : Sessions) (k : String) :
    sessionsFind (sessionsDelete m k) k = none := by
  induction m with
  | nil => rfl
  | cons hd tl ih =>
    obtain ⟨k', s'⟩ := hd
    by_cases h : k' = k
    · simpa [sessionsDelete, List.filter_cons, h] using ih
    · simpa [sessionsDelete, List.filter_cons, h, sessionsFind] using ih

theorem markGroomingStatus_found (v : Vault) (tid : String) (p : GroomingPatch) (now : Nat)
    (t0 : Ticket) (hV : vaultFind v (tid ++ ".md") = some (some t0)) :
    markGroomingStatus v tid p now =
      vaultWrite v (tid ++ ".md")
        (some { parsedView t0 with
                  updatedAt := now
                  grooming := some (mergeGrooming t0.grooming p) }) := by
  simp [markGroomingStatus, getTicket, hV, updateTicket, parsedView, oOr]

theorem vaultFind_mark (v : Vault) (tid : String) (p : GroomingPatch) (now : Nat)
    (t0 : Ticket) (hV : vaultFind v (tid ++ ".md") = some (some t0)) :
    vaultFind (markGroomingStatus v tid p now) (tid ++ ".md") =
      some (some { parsedView t0 with
                     updatedAt := now
                     grooming := some (mergeGrooming t0.grooming p) }) := by
  rw [markGroomingStatus_found v tid p now t0 hV]
  exact vaultFind_write_self v (tid ++ ".md") _

theorem groomingOf_mark (v : Vault) (tid : String) (p : GroomingPatch) (now : Nat)
    (t0 : Ticket) (hV : vaultFind v (tid ++ ".md") = some (some t0)) :
    groomingOf (markGroomingStatus v tid p now) tid = some (mergeGrooming t0.grooming p) := by
  simp [groomingOf, vaultFind_mark v tid p now t0 hV]

theorem sessionsSet_keys_sub (m : Sessions) (k : String) (s : SessionInfo) (x : String)
    (hx : x ∈ (sessionsSet m k s).map Prod.fst) : x = k ∨ x ∈ m.map Prod.fst := by
  induction m with
  | nil =>
    simp only [sessionsSet, List.map_cons, List.map_nil, List.mem_singleton] at hx
    exact Or.inl hx
  | cons hd tl ih =>
    obtain ⟨k', s'⟩ := hd
    simp only [sessionsSet] at hx
    by_cases h : k' = k
    · rw [if_pos h] at hx
      simp only [List.map_cons, List.mem_cons] at hx
      rcases hx with rfl | hx
      · exact Or.inl rfl
      · exact Or.inr (by simp only [List.map_cons, List.mem_cons]; exact Or.inr hx)
    · rw [if_neg h] at hx
      simp only [List.map_cons, List.mem_cons] at hx
      rcases hx with rfl | hx
      · exact Or.inr (by simp)
      · rcases ih hx with rfl | hx2
        · exact Or.inl rfl
        · exact Or.inr (by simp only [List.map_cons, List.mem_cons]; exact Or.inr hx2)

theorem sessionsSet_keys_nodup (m : Sessions) (k : String) (s : SessionInfo)
    (hm : (m.map Prod.fst).Nodup) : ((sessionsSet m k s).map Prod.fst).Nodup := by
  induction m with
  | nil => simp [sessionsSet]
  | cons hd tl ih =>
    obtain ⟨k', s'⟩ := hd
    simp only [List.map_cons, List.nodup_cons] at hm
    by_cases h : k' = k
    · subst h
      simpa [sessionsSet] using hm
    · simp only [sessionsSet, h, if_false, List.map_cons, List.nodup_cons]
      refine ⟨fun hmem => ?_, ih hm.2⟩
      rcases sessionsSet_keys_sub tl k s k' hmem with rfl | hx
      · exact h rfl
      · exact hm.1 hx

theorem sessionsDelete_keys_nodup (m : Sessions) (k : String)
    (hm : (m.map Prod.fst).Nodup) : ((sessionsDelete m k).map Prod.fst).Nodup := by
  have hsub : (sessionsDelete m k).Sublist m := List.filter_sublist m
  exact hm.sublist (hsub.map Prod.fst)

theorem applySessOps_nodup_aux (ops : List SessOp) :
    ∀ m : Sessions, (m.map Prod.fst).Nodup → ((ops.foldl applySessOp m).map Prod.fst).Nodup := by
  induction ops with
  | nil => intro m hm; simpa using hm
  | cons op rest ih =>
    intro m hm
    simp only [List.foldl_cons]
    refine ih _ ?_
    cases op with
    | set id s => exact sessionsSet_keys_nodup m id s hm
    | del id => exact sessionsDelete_keys_nodup m id hm

theorem getTicket_write_self (v : Vault) (id : String) (t : Ticket) :
    getTicket (vaultWrite v (id ++ ".md") (some t)) id = .ok (parsedView t) := by
  simp [getTicket, vaultFind_write_self]

theorem collectTickets_eq (l : List (String × Option Ticket)) :
    collectTickets l = l.filterMap (fun f => f.2.map parsedView) := by
  induction l with
  | nil => rfl
  | cons hd tl ih =>
    obtain ⟨name, c⟩ := hd
    cases c <;> simp [collectTickets, ih]

theorem score_congr (t1 t2 : Ticket) (hb : t1.body = t2.body) (he : t1.estimate = t2.estimate) :
    calculateGroomingScore t1 = calculateGroomingScore t2 := by
  simp only [calculateGroomingScore, hb, he]

theorem getTicket_ok_inv (v : Vault) (id : String) (t : Ticket)
    (h : getTicket v id = .ok t) :
    ∃ t0, vaultFind v (id ++ ".md") = some (some t0) ∧ t = parsedView t0 := by
  unfold getTicket at h
  rcases hf : vaultFind v (id ++ ".md") with _ | (_ | t0) <;> rw [hf] at h
  · exact absurd h (by simp)
  · exact absurd h (by simp)
  · exact ⟨t0, rfl, by injection h with h2; exact h2.symm⟩

theorem agentResultOf_fail (o : FetchOutcome) (hf : outcomeFails o = true) :
    agentResultOf o = { success := false, error := some (outcomeErrMsg o) } := by
  cases o <;> simp [agentResultOf, outcomeErrMsg, outcomeFails] at hf ⊢

theorem triggerAttempts_zero (cfg : Config) (oracle : Nat → FetchOutcome) (tid : String)
    (ticket : Ticket) (sKey : String) (now : Nat) (lastE : String) (st : TrigState) :
    triggerAttempts cfg oracle tid ticket sKey now 0 lastE st =
      { vault := markGroomingStatus st.vault tid (failedPatch ticket lastE) now
        sessions := st.sessions
        ok := false
        err := some lastE
        sessionKey := none
        fetchCalls := st.fetchCalls
        attemptsMade := st.attemptsMade
        delaysMs := st.delaysMs
        cleanups := st.cleanups } := rfl

theorem triggerAttempts_fail_step (cfg : Config) (oracle : Nat → FetchOutcome) (tid : String)
    (ticket : Ticket) (sKey : String) (now : Nat) (fuel : Nat) (lastE : String) (st : TrigState)
    (tok : String) (hTok : cfg.openclawToken = some tok) (hne : fuel ≠ 0)
    (hf : outcomeFails (oracle st.fetchCalls) = true) :
    triggerAttempts cfg oracle tid ticket sKey now fuel lastE st =
      triggerAttempts cfg oracle tid ticket sKey now (fuel - 1)
        (attemptErrMsg (oracle st.fetchCalls))
        (if fuel - 1 = 0 then
          { st with attemptsMade := st.attemptsMade + 1, fetchCalls := st.fetchCalls + 1 }
        else
          { st with attemptsMade := st.attemptsMade + 1, fetchCalls := st.fetchCalls + 1
                    delaysMs := st.delaysMs ++ [retryDelayMs] }) := by
  obtain ⟨n, rfl⟩ := Nat.exists_eq_succ_of_ne_zero hne
  have hres := agentResultOf_fail (oracle st.fetchCalls) hf
  simp only [triggerAttempts, runOpenClawAgent, hTok, Nat.add_sub_cancel]
  simp [hres, attemptErrMsg]

theorem triggerAttempts_noToken_step (cfg : Config) (oracle : Nat → FetchOutcome) (tid : String)
    (ticket : Ticket) (sKey : String) (now : Nat) (fuel : Nat) (lastE : String) (st : TrigState)
    (hTok : cfg.openclawToken = none) (hne : fuel ≠ 0) :
    triggerAttempts cfg oracle tid ticket sKey now fuel lastE st =
      triggerAttempts cfg oracle tid ticket sKey now (fuel - 1) tokenMissingMsg
        (if fuel - 1 = 0 then
          { st with attemptsMade := st.attemptsMade + 1 }
        else
          { st with attemptsMade := st.attemptsMade + 1
                    delaysMs := st.delaysMs ++ [retryDelayMs] }) := by
  obtain ⟨n, rfl⟩ := Nat.exists_eq_succ_of_ne_zero hne
  simp only [triggerAttempts, runOpenClawAgent, hTok, Nat.add_sub_cancel]
  simp [jsOrStr, tokenMissingMsg]

theorem exFullBody_length : exFullBody.length = 2102 := by
  have h1 : exFullMarks.length = 102 := by decide
  show (String.mk (exFullMarks ++ List.replicate 2000 'x')).length = 2102
  simp [String.length, List.length_append, h1]

/-! ### Claim theorems -/

/-- C9: calculateGroomingScore is a pure function of the body and estimate of
the record only: any two tickets agreeing on body and estimate receive equal
scores, whatever their enrichment status and remaining fields. In this
embedding the function is side-effect free by construction, mirroring the
source, which reads the ticket and mutates nothing. -/
theorem calculateGroomingScore_pure (t1 t2 : Ticket)
    (hb : t1.body = t2.body) (he : t1.estimate = t2.estimate) :
    calculateGroomingScore t1 = calculateGroomingScore t2 :=
  score_congr t1 t2 hb he

/-- Witness for C9 at two concrete tickets differing in lifecycle status and
enrichment status but agreeing on body and estimate. -/
theorem calculateGroomingScore_pure_witness :
    calculateGroomingScore exTicketFresh =
      calculateGroomingScore
        { exTicketFresh with status := .done, grooming := some { status := .inProgress } } :=
  calculateGroomingScore_pure _ _ rfl rfl

/-- C10: a record whose estimate is exactly zero is treated asymmetrically:
shouldAutoGroom counts it as having an estimate, so a non-backlog record
with a zero estimate is never eligible, while calculateGroomingScore awards
no estimate points for it, scoring it exactly as if the estimate were
absent. -/
theorem estimateZero_asymmetric :
    (∀ (sessions : Sessions) (now : Nat) (t : Ticket),
        t.estimate = some 0 → t.status ≠ .backlog → shouldAutoGroom sessions now t = false)
    ∧ (∀ t : Ticket, t.estimate = some 0 →
        calculateGroomingScore t = calculateGroomingScore { t with estimate := none }) := by
  constructor
  · intro sessions now t he hst
    simp [shouldAutoGroom, he, hst]
  · intro t he
    simp [calculateGroomingScore, estimateTruthy, he]

/-- Witness for C10 at a concrete in-progress ticket with estimate zero. -/
theorem estimateZero_asymmetric_witness :
    shouldAutoGroom [] 0 exTicketZeroEst = false
    ∧ calculateGroomingScore exTicketZeroEst =
        calculateGroomingScore { exTicketZeroEst with estimate := none } :=
  ⟨estimateZero_asymmetric.1 [] 0 exTicketZeroEst rfl (by decide),
   estimateZero_asymmetric.2 exTicketZeroEst rfl⟩

/-- C6: calculateGroomingScore is deterministic and additive: a record with a
truthy estimate, all five recognised content sections and a body longer
than 2000 characters scores exactly 100, and a record with an empty body
and no estimate scores exactly 0. Determinism is inherent: the score is a
function of the record. -/
theorem calculateGroomingScore_extremes :
    (∀ t : Ticket, estimateTruthy t.estimate = true →
        strIncludes t.body "**Tasks:**" = true →
        strIncludes t.body "**Acceptance Criteria:**" = true →
        strIncludes t.body "**Dependencies:**" = true →
        strIncludes t.body "**Success Metrics:**" = true →
        strIncludes t.body "**Implementation" = true →
        t.body.length > 2000 →
        calculateGroomingScore t = 100)
    ∧ (∀ t : Ticket, t.body = "" → t.estimate = none → calculateGroomingScore t = 0) := by
  constructor
  · intro t h1 h2 h3 h4 h5 h6 h7
    simp [calculateGroomingScore, h1, h2, h3, h4, h5, h6, h7]
  · intro t hb he
    have hc := score_congr t exTicketEmptyBody (hb.trans rfl) (he.trans rfl)
    rw [hc]
    decide

/-- Witness for C6: the fully groomed concrete ticket scores 100 and the
empty concrete ticket scores 0. -/
theorem calculateGroomingScore_extremes_witness :
    calculateGroomingScore exTicketFull = 100
    ∧ calculateGroomingScore exTicketEmptyBody = 0 :=
  ⟨calculateGroomingScore_extremes.1 exTicketFull (by decide) (by decide) (by decide)
      (by decide) (by decide) (by decide)
      (by simp [exTicketFull, exTicketFresh, exFullBody_length]),
   calculateGroomingScore_extremes.2 exTicketEmptyBody rfl rfl⟩

/-- C5: the session map holds at most one entry per identifier in every state
reachable by orchestrator mutations from the initial empty map, and a
record whose identifier has an active session is never eligible, whatever
its other fields. -/
theorem session_uniqueness :
    (∀ ops : List SessOp, ((applySessOps ops).map Prod.fst).Nodup)
    ∧ (∀ (sessions : Sessions) (now : Nat) (t : Ticket) (s : SessionInfo),
        sessionsFind sessions t.id = some s → shouldAutoGroom sessions now t = false) := by
  constructor
  · intro ops
    exact applySessOps_nodup_aux ops [] (by simp)
  · intro sessions now t s h
    simp [shouldAutoGroom, h]

/-- Witness for C5 at a concrete mutation sequence and a concrete session map
holding the identifier of the fresh ticket. -/
theorem session_uniqueness_witness :
    ((applySessOps [SessOp.set "TICK-001" { sessionKey := "k1", startedAt := 0 },
                    SessOp.del "TICK-001"]).map Prod.fst).Nodup
    ∧ shouldAutoGroom [("TICK-001", { sessionKey := "k1", startedAt := 0 })] 0 exTicketFresh
        = false :=
  ⟨session_uniqueness.1 _,
   session_uniqueness.2 _ 0 exTicketFresh { sessionKey := "k1", startedAt := 0 } rfl⟩

/-- C4 (amended): a record younger than the five-minute age window, with the
initial backlog status, an unset estimate and a body shorter than 500
characters is eligible, provided additionally that it carries no
EnrichmentStatus sub-record and has no active session for its identifier.
The original claim is false without the two additional guards: see the
counterexample. -/
theorem shouldAutoGroom_fresh_minimal (sessions : Sessions) (now : Nat) (t : Ticket)
    (hg : t.grooming = none)
    (hs : sessionsFind sessions t.id = none)
    (hst : t.status = .backlog)
    (he : t.estimate = none)
    (hb : t.body.length < 500)
    (hage : (now : Int) - (t.createdAt : Int) < 5 * 60 * 1000) :
    shouldAutoGroom sessions now t = true := by
  have h1 : ¬ (t.body.length ≥ 500) := by omega
  simp only [shouldAutoGroom, groomingBlocked, hg, hs, hst, he]
  simp [h1]
  omega

/-- Witness for C4 at the concrete fresh minimal ticket. -/
theorem shouldAutoGroom_fresh_minimal_witness :
    shouldAutoGroom [] 0 exTicketFresh = true :=
  shouldAutoGroom_fresh_minimal [] 0 exTicketFresh rfl rfl rfl rfl (by decide) (by decide)

/-- C4 counterexample: a record meeting every condition of the original claim
(younger than the window, backlog, unset estimate, short body) whose
grooming status is pending is rejected by shouldAutoGroom. -/
theorem shouldAutoGroom_fresh_minimal_cex :
    exTicketPendingGroom.status = .backlog
    ∧ exTicketPendingGroom.estimate = none
    ∧ exTicketPendingGroom.body.length < 500
    ∧ (0 : Int) - (exTicketPendingGroom.createdAt : Int) < 5 * 60 * 1000
    ∧ shouldAutoGroom [] 0 exTicketPendingGroom = false :=
  ⟨rfl, rfl, by decide, by decide, by decide⟩

/-- C8: a malformed record file never fails the listing: the listing equals
the sorted, filtered collection of exactly the parseable matching files,
and inserting an unparseable file anywhere in the directory leaves the
listing unchanged. -/
theorem listTickets_skips_malformed :
    (∀ (v : Vault) (q : ListQuery),
        listTickets v q =
          sortTickets q.sort q.order
            (applyFilters q
              ((v.filter (fun f => matchTickName f.1)).filterMap
                (fun f => f.2.map parsedView))))
    ∧ (∀ (pre post : Vault) (name : String) (q : ListQuery),
        listTickets (pre ++ (name, none) :: post) q = listTickets (pre ++ post) q) := by
  constructor
  · intro v q
    simp [listTickets, collectTickets_eq]
  · intro pre post name q
    by_cases h : matchTickName name
    · simp [listTickets, collectTickets_eq, List.filter_append, List.filter_cons, h,
        List.filterMap_append, List.filterMap_cons]
    · simp [listTickets, collectTickets_eq, List.filter_append, List.filter_cons, h,
        List.filterMap_append]

/-- C7 (amended): create followed by get returns the created record with an
identical title, status and priority and with the body trimmed of
surrounding whitespace (the parse step trims the stored body, so a body
with surrounding whitespace does not round-trip verbatim); update followed
by get reflects the merged fields with an unchanged identifier, and the
refreshed modification timestamp is strictly later than the previous one
exactly when the clock reading of the update is. -/
theorem create_update_roundtrip :
    (∀ (v : Vault) (input : CreateInput) (now : Nat),
        getTicket (createTicket v input now).2 (createTicket v input now).1.id =
          .ok (parsedView (createTicket v input now).1))
    ∧ (∀ (v : Vault) (id : String) (p : UpdatePatch) (now : Nat) (existing : Ticket),
        getTicket v id = .ok existing →
        ∃ u v', updateTicket v id p now = .ok (u, v')
          ∧ u.id = existing.id
          ∧ u.title = p.title?.getD existing.title
          ∧ u.status = p.status?.getD existing.status
          ∧ u.priority = p.priority?.getD existing.priority
          ∧ u.body = p.body?.getD existing.body
          ∧ u.updatedAt = now
          ∧ getTicket v' id = .ok (parsedView u)
          ∧ (existing.updatedAt < now → existing.updatedAt < u.updatedAt)) := by
  constructor
  · intro v input now
    simp only [createTicket]
    exact getTicket_write_self v _ _
  · intro v id p now existing hget
    simp only [updateTicket, hget]
    refine ⟨_, _, rfl, rfl, rfl, rfl, rfl, rfl, rfl, getTicket_write_self v id _, ?_⟩
    intro h
    simpa using h

/-- Witness for C7 at a concrete creation over the empty directory and a
concrete retitling update of the stored fresh ticket. -/
theorem create_update_roundtrip_witness :
    getTicket (createTicket [] exCreateInput 0).2 (createTicket [] exCreateInput 0).1.id =
      .ok (parsedView (createTicket [] exCreateInput 0).1)
    ∧ (∃ u v', updateTicket exVault "TICK-001" exPatch 5 = .ok (u, v')
        ∧ u.id = (parsedView exTicketFresh).id
        ∧ u.title = exPatch.title?.getD (parsedView exTicketFresh).title
        ∧ u.status = exPatch.status?.getD (parsedView exTicketFresh).status
        ∧ u.priority = exPatch.priority?.getD (parsedView exTicketFresh).priority
        ∧ u.body = exPatch.body?.getD (parsedView exTicketFresh).body
        ∧ u.updatedAt = 5
        ∧ getTicket v' "TICK-001" = .ok (parsedView u)
        ∧ ((parsedView exTicketFresh).updatedAt < 5 →
            (parsedView exTicketFresh).updatedAt < u.updatedAt)) :=
  ⟨create_update_roundtrip.1 [] exCreateInput 0,
   create_update_roundtrip.2 exVault "TICK-001" exPatch 5 (parsedView exTicketFresh) rfl⟩

/-- C7 counterexample: created with a body carrying a trailing newline, the
record read back has a trimmed body differing from the created one; and an
update whose clock reading equals the previous modification timestamp does
not move the timestamp strictly forward. -/
theorem create_update_roundtrip_cex :
    (createTicket [] exCreateInputNl 0).1.body = "x\n"
    ∧ ((getTicket (createTicket [] exCreateInputNl 0).2 "TICK-001").toOption.map Ticket.body)
        = some "x"
    ∧ ("x" : String) ≠ "x\n"
    ∧ ((updateTicket (createTicket [] exCreateInputNl 0).2 "TICK-001" {} 0).toOption.map
        (fun q => q.1.updatedAt)) = some 0
    ∧ (createTicket [] exCreateInputNl 0).1.updatedAt = 0
    ∧ ¬ ((0 : Nat) < 0) :=
  ⟨rfl, by decide, by decide, by decide, rfl, by decide⟩

/-- C3 (amended): when the reconciliation timer fires for a session whose key
still matches, the Session entry is removed by the end of the run in every
case; and when the re-read record is still in progress, a score of at least
60 marks it complete while a lower score marks it failed with the reason
text Session timeout (capitalised in the source, not the lower-case
spelling of the original claim: see the counterexample). -/
theorem sessionCleanup_reconciles (v : Vault) (sessions : Sessions) (tid sKey : String)
    (now : Nat) (s : SessionInfo)
    (hfind : sessionsFind sessions tid = some s)
    (hkey : s.sessionKey = sKey) :
    sessionsFind (runSessionCleanup v sessions tid sKey now).2 tid = none
    ∧ (∀ t : Ticket, getTicket v tid = .ok t →
        t.grooming.map GroomingStatus.status = some .inProgress →
        ((calculateGroomingScore t ≥ 60 →
            (groomingOf (runSessionCleanup v sessions tid sKey now).1 tid).map
              GroomingStatus.status = some .complete)
         ∧ (calculateGroomingScore t < 60 →
            (groomingOf (runSessionCleanup v sessions tid sKey now).1 tid).map
              GroomingStatus.status = some .failed
            ∧ (groomingOf (runSessionCleanup v sessions tid sKey now).1 tid).bind
                GroomingStatus.lastError = some "Session timeout"))) := by
  constructor
  · simp only [runSessionCleanup, hfind, hkey, if_pos rfl]
    exact sessionsFind_delete_self _ _
  · intro t hget hstatus
    obtain ⟨t0, hf0, ht⟩ := getTicket_ok_inv v tid t hget
    have hg0 : t0.grooming = t.grooming := by rw [ht]; rfl
    constructor
    · intro h60
      have hrun : (runSessionCleanup v sessions tid sKey now).1 =
          markGroomingStatus v tid
            { status? := some .complete, completedAt? := some now } now := by
        simp [runSessionCleanup, hfind, hkey, hget, hstatus, h60, markGroomingComplete]
      rw [hrun, groomingOf_mark v tid _ now t0 hf0]
      simp [mergeGrooming]
    · intro h60
      have hlt : ¬ (calculateGroomingScore t ≥ 60) := by omega
      have hrun : (runSessionCleanup v sessions tid sKey now).1 =
          markGroomingStatus v tid
            { status? := some .failed, lastError? := some "Session timeout" } now := by
        simp [runSessionCleanup, hfind, hkey, hget, hstatus, hlt, markGroomingFailed]
      rw [hrun, groomingOf_mark v tid _ now t0 hf0]
      simp [mergeGrooming, oOr]

/-- Witness for C3 at the concrete in-progress ticket under the concrete
session map. -/
theorem sessionCleanup_reconciles_witness :
    sessionsFind (runSessionCleanup exVaultInProg exSessions "TICK-001" "sk" 99).2 "TICK-001"
      = none
    ∧ (∀ t : Ticket, getTicket exVaultInProg "TICK-001" = .ok t →
        t.grooming.map GroomingStatus.status = some .inProgress →
        ((calculateGroomingScore t ≥ 60 →
            (groomingOf (runSessionCleanup exVaultInProg exSessions "TICK-001" "sk" 99).1
              "TICK-001").map GroomingStatus.status = some .complete)
         ∧ (calculateGroomingScore t < 60 →
            (groomingOf (runSessionCleanup exVaultInProg exSessions "TICK-001" "sk" 99).1
              "TICK-001").map GroomingStatus.status = some .failed
            ∧ (groomingOf (runSessionCleanup exVaultInProg exSessions "TICK-001" "sk" 99).1
                "TICK-001").bind GroomingStatus.lastError = some "Session timeout"))) :=
  sessionCleanup_reconciles exVaultInProg exSessions "TICK-001" "sk" 99 exSession rfl rfl

/-- C3 counterexample: the timeout reason persisted by the code for the
concrete low-score in-progress ticket is the capitalised string, not the
lower-case string of the claim. -/
theorem sessionCleanup_reconciles_cex :
    calculateGroomingScore exTicketInProg < 60
    ∧ (groomingOf (runSessionCleanup exVaultInProg exSessions "TICK-001" "sk" 99).1
        "TICK-001").map GroomingStatus.status = some .failed
    ∧ (groomingOf (runSessionCleanup exVaultInProg exSessions "TICK-001" "sk" 99).1
        "TICK-001").bind GroomingStatus.lastError = some "Session timeout"
    ∧ (groomingOf (runSessionCleanup exVaultInProg exSessions "TICK-001" "sk" 99).1
        "TICK-001").bind GroomingStatus.lastError ≠ some "session timeout" :=
  ⟨by decide, by decide, by decide, by decide⟩

/-- C1 (amended): when all three sequential invocation attempts fail, the
persisted EnrichmentStatus is failed and carries the recorded message of
the last attempt (its reported error message, with an empty message
replaced by the generic fallback text through the falsy disjunction of the
source), and three invocation attempts are indeed made; the persisted
attempts field, however, is the prior attempt counter of the snapshot
ticket plus one — it counts triggerGrooming invocations, not in-loop
attempts, so it is 1 (not 3) for a ticket with no prior attempts: see the
counterexample. -/
theorem triggerGrooming_all_fail (cfg : Config) (oracle : Nat → FetchOutcome) (v : Vault)
    (sessions : Sessions) (tid : String) (ticket t0 : Ticket) (now : Nat) (tok : String)
    (hTok : cfg.openclawToken = some tok)
    (h0 : outcomeFails (oracle 0) = true)
    (h1 : outcomeFails (oracle 1) = true)
    (h2 : outcomeFails (oracle 2) = true)
    (hV : vaultFind v (tid ++ ".md") = some (some t0)) :
    (triggerGrooming cfg oracle v sessions tid ticket now).ok = false
    ∧ (triggerGrooming cfg oracle v sessions tid ticket now).attemptsMade = 3
    ∧ (triggerGrooming cfg oracle v sessions tid ticket now).err
        = some (attemptErrMsg (oracle 2))
    ∧ (groomingOf (triggerGrooming cfg oracle v sessions tid ticket now).vault tid).map
        GroomingStatus.status = some .failed
    ∧ (groomingOf (triggerGrooming cfg oracle v sessions tid ticket now).vault tid).bind
        GroomingStatus.lastError = some (attemptErrMsg (oracle 2))
    ∧ (groomingOf (triggerGrooming cfg oracle v sessions tid ticket now).vault tid).bind
        GroomingStatus.attempts = some (jsOrNat (groomAttempts ticket) 0 + 1) := by
  have hkey1 := vaultFind_mark v tid (pendingPatch ticket now) now t0 hV
  have hfinal : triggerGrooming cfg oracle v sessions tid ticket now =
      { vault := markGroomingStatus
          (markGroomingStatus v tid (pendingPatch ticket now) now) tid
          (failedPatch ticket (attemptErrMsg (oracle 2))) now
        sessions := sessions
        ok := false
        err := some (attemptErrMsg (oracle 2))
        sessionKey := none
        fetchCalls := 3
        attemptsMade := 3
        delaysMs := [retryDelayMs, retryDelayMs]
        cleanups := [] } := by
    show triggerAttempts cfg oracle tid ticket
        ("groom-" ++ tid ++ "-" ++ Nat.repr now) now 3 ""
        { vault := markGroomingStatus v tid (pendingPatch ticket now) now
          sessions := sessions } = _
    rw [triggerAttempts_fail_step cfg oracle tid ticket _ now 3 "" _ tok hTok
        (by decide) (by simpa using h0)]
    norm_num
    rw [triggerAttempts_fail_step cfg oracle tid ticket _ now 2 _ _ tok hTok
        (by decide) (by simpa using h1)]
    norm_num
    rw [triggerAttempts_fail_step cfg oracle tid ticket _ now 1 _ _ tok hTok
        (by decide) (by simpa using h2)]
    norm_num
    rw [triggerAttempts_zero]
  rw [hfinal]
  refine ⟨rfl, rfl, rfl, ?_, ?_, ?_⟩ <;>
    rw [groomingOf_mark _ tid _ now _ hkey1] <;>
    simp [mergeGrooming, failedPatch, oOr]

/-- Witness for C1 at the concrete all-failures run over the fresh ticket. -/
theorem triggerGrooming_all_fail_witness :
    (triggerGrooming exCfg exOracleFail exVault [] "TICK-001" exTicketFresh 7).ok = false
    ∧ (triggerGrooming exCfg exOracleFail exVault [] "TICK-001" exTicketFresh 7).attemptsMade = 3
    ∧ (triggerGrooming exCfg exOracleFail exVault [] "TICK-001" exTicketFresh 7).err
        = some "boom"
    ∧ (groomingOf (triggerGrooming exCfg exOracleFail exVault [] "TICK-001" exTicketFresh 7).vault
        "TICK-001").map GroomingStatus.status = some .failed
    ∧ (groomingOf (triggerGrooming exCfg exOracleFail exVault [] "TICK-001" exTicketFresh 7).vault
        "TICK-001").bind GroomingStatus.lastError = some "boom"
    ∧ (groomingOf (triggerGrooming exCfg exOracleFail exVault [] "TICK-001" exTicketFresh 7).vault
        "TICK-001").bind GroomingStatus.attempts = some 1 :=
  triggerGrooming_all_fail exCfg exOracleFail exVault [] "TICK-001" exTicketFresh exTicketFresh
    7 "tok" rfl rfl rfl rfl rfl

/-- C1 counterexample: for the fresh ticket with no prior attempts, three
invocation attempts are made but the persisted attempts field is 1, not 3
as the claim states. -/
theorem triggerGrooming_all_fail_cex :
    (triggerGrooming exCfg exOracleFail exVault [] "TICK-001" exTicketFresh 7).attemptsMade = 3
    ∧ (groomingOf (triggerGrooming exCfg exOracleFail exVault [] "TICK-001" exTicketFresh 7).vault
        "TICK-001").map GroomingStatus.status = some .failed
    ∧ (groomingOf (triggerGrooming exCfg exOracleFail exVault [] "TICK-001" exTicketFresh 7).vault
        "TICK-001").bind GroomingStatus.attempts = some 1
    ∧ (some 1 : Option Nat) ≠ some 3 :=
  ⟨by decide, by decide, by decide, by decide⟩

/-- C2 (amended): with no configured token every attempt fails immediately at
the precondition check and no gateway request is ever issued, and the
recorded failure carries the token error; triggerGrooming nevertheless
still performs the full three sequential attempts with two inter-attempt
delays — the missing credential is not special-cased out of the retry
loop: see the counterexample. -/
theorem triggerGrooming_no_token (cfg : Config) (oracle : Nat → FetchOutcome) (v : Vault)
    (sessions : Sessions) (tid : String) (ticket t0 : Ticket) (now : Nat)
    (hTok : cfg.openclawToken = none)
    (hV : vaultFind v (tid ++ ".md") = some (some t0)) :
    (triggerGrooming cfg oracle v sessions tid ticket now).ok = false
    ∧ (triggerGrooming cfg oracle v sessions tid ticket now).fetchCalls = 0
    ∧ (triggerGrooming cfg oracle v sessions tid ticket now).attemptsMade = 3
    ∧ (triggerGrooming cfg oracle v sessions tid ticket now).delaysMs
        = [retryDelayMs, retryDelayMs]
    ∧ (triggerGrooming cfg oracle v sessions tid ticket now).err = some tokenMissingMsg
    ∧ (groomingOf (triggerGrooming cfg oracle v sessions tid ticket now).vault tid).map
        GroomingStatus.status = some .failed
    ∧ (groomingOf (triggerGrooming cfg oracle v sessions tid ticket now).vault tid).bind
        GroomingStatus.lastError = some tokenMissingMsg := by
  have hkey1 := vaultFind_mark v tid (pendingPatch ticket now) now t0 hV
  have hfinal : triggerGrooming cfg oracle v sessions tid ticket now =
      { vault := markGroomingStatus
          (markGroomingStatus v tid (pendingPatch ticket now) now) tid
          (failedPatch ticket tokenMissingMsg) now
        sessions := sessions
        ok := false
        err := some tokenMissingMsg
        sessionKey := none
        fetchCalls := 0
        attemptsMade := 3
        delaysMs := [retryDelayMs, retryDelayMs]
        cleanups := [] } := by
    show triggerAttempts cfg oracle tid ticket
        ("groom-" ++ tid ++ "-" ++ Nat.repr now) now 3 ""
        { vault := markGroomingStatus v tid (pendingPatch ticket now) now
          sessions := sessions } = _
    rw [triggerAttempts_noToken_step cfg oracle tid ticket _ now 3 "" _ hTok (by decide)]
    norm_num
    rw [triggerAttempts_noToken_step cfg oracle tid ticket _ now 2 _ _ hTok (by decide)]
    norm_num
    rw [triggerAttempts_noToken_step cfg oracle tid ticket _ now 1 _ _ hTok (by decide)]
    norm_num
    rw [triggerAttempts_zero]
  rw [hfinal]
  refine ⟨rfl, rfl, rfl, rfl, rfl, ?_, ?_⟩ <;>
    rw [groomingOf_mark _ tid _ now _ hkey1] <;>
    simp [mergeGrooming, failedPatch, oOr]

/-- Witness for C2 at the concrete token-less run over the fresh ticket. -/
theorem triggerGrooming_no_token_witness :
    (triggerGrooming exCfgNoToken exOracleFail exVault [] "TICK-001" exTicketFresh 7).ok = false
    ∧ (triggerGrooming exCfgNoToken exOracleFail exVault [] "TICK-001" exTicketFresh 7).fetchCalls
        = 0
    ∧ (triggerGrooming exCfgNoToken exOracleFail exVault [] "TICK-001" exTicketFresh 7).attemptsMade
        = 3
    ∧ (triggerGrooming exCfgNoToken exOracleFail exVault [] "TICK-001" exTicketFresh 7).delaysMs
        = [retryDelayMs, retryDelayMs]
    ∧ (triggerGrooming exCfgNoToken exOracleFail exVault [] "TICK-001" exTicketFresh 7).err
        = some tokenMissingMsg
    ∧ (groomingOf (triggerGrooming exCfgNoToken exOracleFail exVault [] "TICK-001"
        exTicketFresh 7).vault "TICK-001").map GroomingStatus.status = some .failed
    ∧ (groomingOf (triggerGrooming exCfgNoToken exOracleFail exVault [] "TICK-001"
        exTicketFresh 7).vault "TICK-001").bind GroomingStatus.lastError
        = some tokenMissingMsg :=
  triggerGrooming_no_token exCfgNoToken exOracleFail exVault [] "TICK-001" exTicketFresh
    exTicketFresh 7 rfl rfl

/-- C2 counterexample: with no configured token the trigger still makes three
attempts and sleeps twice between them, contradicting the immediate
no-retry failure of the claim. -/
theorem triggerGrooming_no_token_cex :
    (triggerGrooming exCfgNoToken exOracleFail exVault [] "TICK-001" exTicketFresh 7).attemptsMade
      = 3
    ∧ (3 : Nat) ≠ 1
    ∧ (triggerGrooming exCfgNoToken exOracleFail exVault [] "TICK-001" exTicketFresh 7).delaysMs
        = [5000, 5000]
    ∧ ([5000, 5000] : List Nat) ≠ [] :=
  ⟨by decide, by decide, by decide, by decide⟩

end MissionControl
